import Mathlib

/-!
# Verification of the Thrive `OgreEngine` composition root

Shallow embedding of `src/src/ogre/ogre_engine.cpp`.

The file under verification is the glue between the Ogre 3D rendering
backend, the OIS input library and an entity/component/system framework.
The `Engine` base class (lifecycle state machine, `addSystem` registry,
`Engine::init/update/shutdown`) and the `Game` singleton (process quit
flag) are part of this repository but not in the excerpt; they are
modelled from the specification, and each such definition is marked
`Modelled from the spec:` in its doc comment.  Third-party collaborators
(Ogre, OIS) are modelled as an environment of opaque handles and an
event trace recording the calls made into them.
-/

namespace Thrive

/-- The per-frame Systems registered by `OgreEngine::init`, named after the
concrete classes constructed at `ogre_engine.cpp:175-204`. -/
inductive SystemId where
  | keyboard
  | addSceneNode
  | updateSceneNode
  | camera
  | light
  | sky
  | entity
  | viewport
  | removeSceneNode
  | render
deriving DecidableEq, Repr

/-- Modelled from the spec: the `Engine` base-class lifecycle states
(`Uninitialized → Initialized → Running → ShutDown`, spec §4.1); the base
class is not part of the excerpt. -/
inductive LifecycleState where
  | uninitialized
  | initialized
  | running
  | shutDown
deriving DecidableEq, Repr

/-- The three lifecycle methods of the engine. -/
inductive LifecycleMethod where
  | initM
  | updateM
  | shutdownM
deriving DecidableEq, Repr

/-- Modelled from the spec: the lifecycle transition relation of the
`Engine` base class (spec §4.1): `init` only from `uninitialized`,
`update` from `initialized`/`running` (self-loop on `running`),
`shutdown` from `initialized`/`running`; every other call is fatal
(`none`). -/
def lifecycleStep : LifecycleState → LifecycleMethod → Option LifecycleState
  | .uninitialized, .initM => some .initialized
  | .initialized, .updateM => some .running
  | .running, .updateM => some .running
  | .initialized, .shutdownM => some .shutDown
  | .running, .shutdownM => some .shutDown
  | _, _ => none

/-- Position of a lifecycle state along the forward order
`Uninitialized → Initialized → Running → ShutDown`. -/
def lifecycleRank : LifecycleState → Nat
  | .uninitialized => 0
  | .initialized => 1
  | .running => 2
  | .shutDown => 3

/-- Calls made into the third-party backends and into the System
pipeline, recorded as an observable trace. -/
inductive Event where
  /-- `setupLog`: create the Ogre log manager and default log. -/
  | setupLog
  /-- `new Ogre::Root(PLUGINS_CFG)`: construct the rendering root from
  the plugin manifest. -/
  | createRoot
  /-- `ResourceGroupManager::addResourceLocation(location, type, sectionName)`. -/
  | addResourceLocation (location ty sectionName : String)
  /-- `m_root->restoreConfig()`. -/
  | restoreConfigAttempt
  /-- `m_root->showConfigDialog()`. -/
  | showConfigDialogAttempt
  /-- `m_root->initialise(true, "Thrive")`: create the display surface. -/
  | createWindow
  /-- `WindowEventUtilities::addWindowEventListener(m_window, impl)`. -/
  | addWindowListener
  /-- `TextureManager::setDefaultNumMipmaps(5)`. -/
  | setMipmaps
  /-- `ResourceGroupManager::initialiseAllResourceGroups()`. -/
  | initResourceGroups
  /-- `setupSceneManager`: `m_root->createSceneManager(...)`. -/
  | setupSceneManager
  /-- `setupLighting`: `m_sceneManager->setAmbientLight(...)`. -/
  | setupLighting
  /-- `setupInputManager`: `OIS::InputManager::createInputSystem(...)`. -/
  | setupInputManager
  /-- `this->addSystem(...)`: register a System with the engine. -/
  | registerSystem (s : SystemId)
  /-- `Engine::init()` (base class). -/
  | engineInit
  /-- `WindowEventUtilities::messagePump()`. -/
  | messagePump
  /-- A System's `update(dt)` call. -/
  | systemUpdate (s : SystemId) (dt : Int)
  /-- A System's shutdown call during `Engine::shutdown()`. -/
  | systemShutdown (s : SystemId)
  /-- `OIS::InputManager::destroyInputSystem(m_inputManager)`. -/
  | destroyInputSystem
  /-- `m_window->destroy()`. -/
  | destroyWindow
  /-- `m_root.reset()`: release the rendering root. -/
  | releaseRoot
deriving DecidableEq, Repr

/-- The state of an `OgreEngine`, combining the fields of
`OgreEngine::Implementation` (`ogre_engine.cpp:129-140`) with the
spec-modelled `Engine` base class state and the `Game` quit flag.
Third-party pointers are `Option Nat` handles (`none` = null) or, for
pointers whose only observable property here is nullness, `Bool`. -/
structure EngineState where
  /-- Modelled from the spec: the `Engine` base-class lifecycle state. -/
  lifecycle : LifecycleState
  /-- Modelled from the spec: the `Engine` base-class System registry,
  an ordered list ("order is declared once ... as an explicit ordered
  list", spec §4.2); `addSystem` appends. -/
  systems : List SystemId
  /-- Modelled from the spec: the process-level quit flag set by
  `Game::instance().quit()` (spec §5: "a process-wide quit flag"). -/
  quit : Bool
  /-- `std::unique_ptr<Ogre::Root> m_root`: `true` iff non-null. -/
  m_root : Bool
  /-- `OIS::InputManager* m_inputManager = nullptr`. -/
  m_inputManager : Option Nat
  /-- `std::shared_ptr<KeyboardSystem> m_keyboardSystem` (always set by
  the constructor; the handle identifies the object). -/
  m_keyboardSystem : Option Nat
  /-- `Ogre::SceneManager* m_sceneManager = nullptr`: `true` iff non-null. -/
  m_sceneManager : Bool
  /-- `std::shared_ptr<OgreViewportSystem> m_viewportSystem`. -/
  m_viewportSystem : Option Nat
  /-- `Ogre::RenderWindow* m_window = nullptr`. -/
  m_window : Option Nat
deriving DecidableEq, Repr

/-- `OgreEngine::OgreEngine` together with `Implementation::Implementation`
(`ogre_engine.cpp:39-43, 144-149`): the keyboard and viewport Systems are
constructed here (`new` never returns null, so the handles are `some`);
every other pointer starts null and the registry empty. -/
def ogreEngineNew (keyboardHandle viewportHandle : Nat) : EngineState :=
  { lifecycle := .uninitialized
    systems := []
    quit := false
    m_root := false
    m_inputManager := none
    m_keyboardSystem := some keyboardHandle
    m_sceneManager := false
    m_viewportSystem := some viewportHandle
    m_window := none }

/-- Behavior of the third-party collaborators during one `init` call:
what the two Ogre config calls return and which handles the backends
hand out. -/
structure Env where
  /-- Result of `m_root->restoreConfig()`. -/
  restoreConfigOk : Bool
  /-- Result of `m_root->showConfigDialog()`. -/
  showConfigDialogOk : Bool
  /-- One section of the resource manifest is a group name together with
  the `(type, location)` settings the backend's iterator yields for it;
  the manifest is the sequence of sections in iteration order.  Parsing
  is the backend's (spec §6). -/
  resourcesCfg : List (String × List (String × String))
  /-- Handle of the window returned by `m_root->initialise`. -/
  newWindowHandle : Nat
  /-- Handle returned by `OIS::InputManager::createInputSystem`. -/
  newInputHandle : Nat
deriving Repr

/-- Result of an engine call: normal return, process exit (`exit(code)`),
or a fatal propagated error.  The state/trace at the moment of
exit/failure is kept observable. -/
inductive Outcome (α : Type) where
  | ok (a : α)
  | exited (code : Nat) (a : α)
  | fatal (a : α)
deriving DecidableEq, Repr

/-- State together with the trace of backend calls made so far. -/
abbrev Res := Outcome (EngineState × List Event)

/-- `Implementation::windowClosing` (`ogre_engine.cpp:119-127`): if the
closing window is the engine's own, signal process quit via
`Game::instance().quit()`; always return `true`.  Result is
`(returnValue, newState)`. -/
def windowClosing (s : EngineState) (w : Nat) : Bool × EngineState :=
  if some w = s.m_window then
    (true, { s with quit := true })
  else
    (true, s)

/-- `Implementation::loadConfig` (`ogre_engine.cpp:52-58`):
`restoreConfig() or showConfigDialog()` with C++ short-circuit (the
dialog is only shown when restore fails); on failure of both,
`exit(EXIT_SUCCESS)` where `EXIT_SUCCESS = 0`. -/
def loadConfig (env : Env) (s : EngineState) : Res :=
  let tr := Event.restoreConfigAttempt ::
    (if env.restoreConfigOk then [] else [Event.showConfigDialogAttempt])
  if env.restoreConfigOk || env.showConfigDialogOk then
    .ok (s, tr)
  else
    .exited 0 (s, tr)

/-- One search-path registration: `(location, type, sectionName)` in the
argument order of `Ogre::ResourceGroupManager::addResourceLocation`. -/
abbrev RegEntry := String × String × String

/-- Inner `for` loop of `Implementation::loadResources`
(`ogre_engine.cpp:69-77`): for each `(type, location)` setting of a
section, one `addResourceLocation(location, type, sectionName)` call. -/
def settingsLoop (sectionName : String) : List (String × String) → List RegEntry
  | [] => []
  | (ty, location) :: rest =>
      (location, ty, sectionName) :: settingsLoop sectionName rest

/-- Outer `while` loop of `Implementation::loadResources`
(`ogre_engine.cpp:60-79`): iterate the sections the config-file iterator
yields, running the settings loop for each. -/
def loadResources : List (String × List (String × String)) → List RegEntry
  | [] => []
  | (sectionName, content) :: rest =>
      settingsLoop sectionName content ++ loadResources rest

/-- The registrations the spec describes (spec §6: "sections mapping
resource-group name → list of (type, location) pairs", consumed to
register search paths): exactly one `(location, type, section)` entry
per listed pair, sections and settings in order. -/
def resourceRegistrationSpec
    (cfg : List (String × List (String × String))) : List RegEntry :=
  cfg.flatMap fun sec => sec.2.map fun st => (st.2, st.1, sec.1)

/-- The fixed System registration order of `OgreEngine::init`
(`ogre_engine.cpp:175-204`): keyboard, add-scene-node,
update-scene-node, camera, light, sky, entity, viewport ("Has to come
*after* camera system"), remove-scene-node, render. -/
def pipelineOrder : List SystemId :=
  [.keyboard, .addSceneNode, .updateSceneNode, .camera, .light, .sky,
   .entity, .viewport, .removeSceneNode, .render]

/-- Modelled from the spec: `Engine::init()` of the base class (spec
§4.1): valid only from `Uninitialized` (any other state is a fatal
programming error), transitions to `Initialized`; it then initializes
each registered System in order (a side effect internal to the base
class, recorded here as the single `engineInit` marker). -/
def engineBaseInit (s : EngineState) : Res :=
  match lifecycleStep s.lifecycle .initM with
  | some l => .ok ({ s with lifecycle := l }, [Event.engineInit])
  | none => .fatal (s, [])

/-- Modelled from the spec: `Engine::update(dt)` of the base class (spec
§4.1, §8): valid only from `Initialized`/`Running` (fatal otherwise);
invokes every registered System's `update(dt)` exactly once, in
registration order; transitions to `Running`. -/
def engineBaseUpdate (dt : Int) (s : EngineState) : Res :=
  match lifecycleStep s.lifecycle .updateM with
  | some l =>
      .ok ({ s with lifecycle := l },
        s.systems.map fun sys => Event.systemUpdate sys dt)
  | none => .fatal (s, [])

/-- Modelled from the spec: `Engine::shutdown()` of the base class (spec
§3, §4.1): valid only from `Initialized`/`Running` (fatal otherwise);
calls each System's shutdown and transitions to `ShutDown`. -/
def engineBaseShutdown (s : EngineState) : Res :=
  match lifecycleStep s.lifecycle .shutdownM with
  | some l =>
      .ok ({ s with lifecycle := l }, s.systems.map Event.systemShutdown)
  | none => .fatal (s, [])

/-- `OgreEngine::init` (`ogre_engine.cpp:155-206`), step by step:
`setupLog`; construct `Ogre::Root` from the plugin manifest; register
the resource locations; `loadConfig` (which may exit the process, in
which case nothing further runs); create the window; register the
window-close listener; set mipmaps; initialise resource groups; set up
scene manager, lighting and input manager; register the ten Systems in
`pipelineOrder` via `addSystem` (which appends, keyboard and viewport
being the constructor-created objects); finally `Engine::init()`. -/
def ogreInit (env : Env) (s : EngineState) : Res :=
  let s1 := { s with m_root := true }
  let tr1 := [Event.setupLog, Event.createRoot] ++
    (loadResources env.resourcesCfg).map
      fun e => Event.addResourceLocation e.1 e.2.1 e.2.2
  match loadConfig env s1 with
  | .ok (s2, trC) =>
      let s3 := { s2 with
        m_window := some env.newWindowHandle
        m_sceneManager := true
        m_inputManager := some env.newInputHandle }
      let s4 := { s3 with systems := s3.systems ++ pipelineOrder }
      let tr2 := tr1 ++ trC ++
        [Event.createWindow, Event.addWindowListener, Event.setMipmaps,
         Event.initResourceGroups, Event.setupSceneManager,
         Event.setupLighting, Event.setupInputManager] ++
        pipelineOrder.map Event.registerSystem
      match engineBaseInit s4 with
      | .ok (s5, trI) => .ok (s5, tr2 ++ trI)
      | .fatal (s5, trI) => .fatal (s5, tr2 ++ trI)
      | .exited c (s5, trI) => .exited c (s5, tr2 ++ trI)
  | .exited c (s2, trC) => .exited c (s2, tr1 ++ trC)
  | .fatal (s2, trC) => .fatal (s2, tr1 ++ trC)

/-- A pending display/window event delivered by
`Ogre::WindowEventUtilities::messagePump()`. -/
inductive WindowEvent where
  /-- The user asked to close window `w`; Ogre dispatches
  `windowClosing(w)` to the registered listener. -/
  | close (w : Nat)
deriving DecidableEq, Repr

/-- `Ogre::WindowEventUtilities::messagePump()` as observed by the
engine: each pending close event synchronously invokes the registered
`windowClosing` listener (`ogre_engine.cpp:162-165`). -/
def messagePump (pending : List WindowEvent) (s : EngineState) : EngineState :=
  pending.foldl (fun st ev => match ev with | .close w => (windowClosing st w).2) s

/-- `OgreEngine::update` (`ogre_engine.cpp:242-248`): pump pending
window events, then `Engine::update(milliSeconds)`. -/
def ogreUpdate (pending : List WindowEvent) (dt : Int) (s : EngineState) : Res :=
  let s1 := messagePump pending s
  match engineBaseUpdate dt s1 with
  | .ok (s2, tr2) => .ok (s2, Event.messagePump :: tr2)
  | .fatal (s2, tr2) => .fatal (s2, Event.messagePump :: tr2)
  | .exited c (s2, tr2) => .exited c (s2, Event.messagePump :: tr2)

/-- `Implementation::shutdownInputManager` (`ogre_engine.cpp:110-117`):
no-op when `m_inputManager` is null; otherwise destroy the input system
and null the handle. -/
def shutdownInputManager (s : EngineState) : EngineState × List Event :=
  match s.m_inputManager with
  | none => (s, [])
  | some _ => ({ s with m_inputManager := none }, [Event.destroyInputSystem])

/-- `OgreEngine::shutdown` (`ogre_engine.cpp:233-239`):
`Engine::shutdown()`, then `shutdownInputManager()`, then
`m_window->destroy()`, then `m_root.reset()`.  A fatal base-class
shutdown propagates before any teardown of the Ogre state. -/
def ogreShutdown (s : EngineState) : Res :=
  match engineBaseShutdown s with
  | .ok (s1, tr1) =>
      let (s2, tr2) := shutdownInputManager s1
      .ok ({ s2 with m_root := false },
        tr1 ++ tr2 ++ [Event.destroyWindow, Event.releaseRoot])
  | .fatal (s1, tr1) => .fatal (s1, tr1)
  | .exited c (s1, tr1) => .exited c (s1, tr1)

/-- `OgreEngine::inputManager` (`ogre_engine.cpp:209-212`). -/
def inputManagerAcc (s : EngineState) : Option Nat := s.m_inputManager

/-- `OgreEngine::keyboardSystem` (`ogre_engine.cpp:215-218`). -/
def keyboardSystemAcc (s : EngineState) : Option Nat := s.m_keyboardSystem

/-- `OgreEngine::root` (`ogre_engine.cpp:221-224`): `m_root.get()` is
null exactly when the `unique_ptr` is empty. -/
def rootAcc (s : EngineState) : Bool := s.m_root

/-- `OgreEngine::sceneManager` (`ogre_engine.cpp:227-230`). -/
def sceneManagerAcc (s : EngineState) : Bool := s.m_sceneManager

/-- `OgreEngine::viewportSystem` (`ogre_engine.cpp:251-254`). -/
def viewportSystemAcc (s : EngineState) : Option Nat := s.m_viewportSystem

/-- `OgreEngine::window` (`ogre_engine.cpp:257-260`). -/
def windowAcc (s : EngineState) : Option Nat := s.m_window

/-- One externally invokable engine operation, with the collaborator
behavior it depends on. -/
inductive Op where
  | opInit (env : Env)
  | opUpdate (pending : List WindowEvent) (dt : Int)
  | opShutdown
  /-- A window-close callback delivered outside `update` (Ogre may pump
  messages whenever the listener is registered). -/
  | opWindowClosing (w : Nat)

/-- The engine state after an operation, whatever its outcome (on a
fatal error or process exit this is the last state observed). -/
def Outcome.state (r : Res) : EngineState :=
  match r with
  | .ok (s, _) => s
  | .exited _ (s, _) => s
  | .fatal (s, _) => s

/-- Apply one operation to the engine state. -/
def applyOp (s : EngineState) : Op → EngineState
  | .opInit env => (ogreInit env s).state
  | .opUpdate pending dt => (ogreUpdate pending dt s).state
  | .opShutdown => (ogreShutdown s).state
  | .opWindowClosing w => (windowClosing s w).2

/-- The engine state reached from `s` by a sequence of operations. -/
def runOps (s : EngineState) (ops : List Op) : EngineState :=
  ops.foldl applyOp s

/-- A representative state of an engine that has completed `init()`:
keyboard System handle 1, viewport handle 2, input manager handle 3,
window handle 7, with the full pipeline registered. -/
def sampleReady : EngineState :=
  { lifecycle := .initialized
    systems := pipelineOrder
    quit := false
    m_root := true
    m_inputManager := some 3
    m_keyboardSystem := some 1
    m_sceneManager := true
    m_viewportSystem := some 2
    m_window := some 7 }

/-- A representative collaborator environment for concrete runs. -/
def sampleEnv : Env :=
  { restoreConfigOk := true
    showConfigDialogOk := false
    resourcesCfg := [("General", [("FileSystem", "../res")])]
    newWindowHandle := 7
    newInputHandle := 3 }

/-! ## Helper lemmas -/

lemma settingsLoop_eq_map (name : String) (content : List (String × String)) :
    settingsLoop name content = content.map fun st => (st.2, st.1, name) := by
  induction content with
  | nil => rfl
  | cons st rest ih => simp [settingsLoop, ih]

lemma windowClosing_fields (s : EngineState) (w : Nat) :
    ((windowClosing s w).2.m_keyboardSystem = s.m_keyboardSystem ∧
      (windowClosing s w).2.m_viewportSystem = s.m_viewportSystem) ∧
    (windowClosing s w).2.lifecycle = s.lifecycle ∧
    (windowClosing s w).2.systems = s.systems ∧
    (windowClosing s w).2.m_root = s.m_root ∧
    (windowClosing s w).2.m_inputManager = s.m_inputManager ∧
    (windowClosing s w).2.m_sceneManager = s.m_sceneManager ∧
    (windowClosing s w).2.m_window = s.m_window := by
  unfold windowClosing
  split <;> simp

lemma messagePump_fields (pending : List WindowEvent) (s : EngineState) :
    (messagePump pending s).m_keyboardSystem = s.m_keyboardSystem ∧
    (messagePump pending s).m_viewportSystem = s.m_viewportSystem ∧
    (messagePump pending s).lifecycle = s.lifecycle ∧
    (messagePump pending s).systems = s.systems ∧
    (messagePump pending s).m_window = s.m_window := by
  induction pending generalizing s with
  | nil => simp [messagePump]
  | cons ev rest ih =>
      obtain ⟨w⟩ := ev
      have h := windowClosing_fields s w
      have h' := ih ((windowClosing s w).2)
      simp only [messagePump, List.foldl_cons] at h' ⊢
      exact ⟨h'.1.trans h.1.1, (h'.2.1).trans h.1.2, (h'.2.2.1).trans h.2.1,
        (h'.2.2.2.1).trans h.2.2.1, (h'.2.2.2.2).trans h.2.2.2.2.2.2⟩

/-- On a state where both config calls fail, `loadConfig` exits. -/
lemma loadConfig_exits (env : Env) (s : EngineState)
    (h1 : env.restoreConfigOk = false) (h2 : env.showConfigDialogOk = false) :
    loadConfig env s =
      .exited 0 (s, [Event.restoreConfigAttempt, Event.showConfigDialogAttempt]) := by
  simp [loadConfig, h1, h2]

/-- When at least one config call succeeds, `loadConfig` returns normally. -/
lemma loadConfig_ok (env : Env) (s : EngineState)
    (h : (env.restoreConfigOk || env.showConfigDialogOk) = true) :
    loadConfig env s = .ok (s, Event.restoreConfigAttempt ::
      (if env.restoreConfigOk then [] else [Event.showConfigDialogAttempt])) := by
  unfold loadConfig
  rw [h]
  simp

/-- The state produced by a successful `ogreInit` from state `s`. -/
def initSuccessState (env : Env) (s : EngineState) : EngineState :=
  { s with
    lifecycle := .initialized
    m_root := true
    m_window := some env.newWindowHandle
    m_sceneManager := true
    m_inputManager := some env.newInputHandle
    systems := s.systems ++ pipelineOrder }

/-- The trace produced by a successful `ogreInit`. -/
def initSuccessTrace (env : Env) : List Event :=
  [Event.setupLog, Event.createRoot] ++
    (loadResources env.resourcesCfg).map
      (fun e => Event.addResourceLocation e.1 e.2.1 e.2.2) ++
    (Event.restoreConfigAttempt ::
      (if env.restoreConfigOk then [] else [Event.showConfigDialogAttempt])) ++
    [Event.createWindow, Event.addWindowListener, Event.setMipmaps,
     Event.initResourceGroups, Event.setupSceneManager,
     Event.setupLighting, Event.setupInputManager] ++
    pipelineOrder.map Event.registerSystem ++ [Event.engineInit]

lemma ogreInit_ok (env : Env) (s : EngineState)
    (hc : (env.restoreConfigOk || env.showConfigDialogOk) = true)
    (hl : s.lifecycle = .uninitialized) :
    ogreInit env s = .ok (initSuccessState env s, initSuccessTrace env) := by
  simp only [ogreInit, loadConfig_ok _ _ hc, engineBaseInit, hl,
    lifecycleStep, initSuccessState, initSuccessTrace]

/-! ## Claims -/

/-- C8: for every section of the resource manifest and every
`(type, location)` pair under it, resource loading registers exactly one
search-path entry `(location, type, sectionName)` with the backend's
resource manager, iterating sections and settings in order: the
registration list computed by the two loops of
`Implementation::loadResources` equals, for every manifest, the
per-section, per-pair map the spec describes. -/
theorem ogre_loadResources_registers_each_pair_in_order
    (cfg : List (String × List (String × String))) :
    loadResources cfg = resourceRegistrationSpec cfg := by
  induction cfg with
  | nil => rfl
  | cons sec rest ih =>
      obtain ⟨name, content⟩ := sec
      simp [loadResources, resourceRegistrationSpec, ih, settingsLoop_eq_map]

/-- C9: the window-close callback always returns `true`; it signals
process-level quit exactly when the closing window is the engine's own
(`quit` becomes `old quit || (w == m_window)`), and it touches no other
part of the state, so a close notification for a foreign window leaves
the quit flag untouched. -/
theorem ogre_windowClosing_returns_true_and_quits_iff_own_window
    (s : EngineState) (w : Nat) :
    (windowClosing s w).1 = true ∧
    (windowClosing s w).2.quit = (s.quit || decide (some w = s.m_window)) ∧
    (windowClosing s w).2.lifecycle = s.lifecycle ∧
    (windowClosing s w).2.systems = s.systems ∧
    (windowClosing s w).2.m_root = s.m_root ∧
    (windowClosing s w).2.m_inputManager = s.m_inputManager ∧
    (windowClosing s w).2.m_keyboardSystem = s.m_keyboardSystem ∧
    (windowClosing s w).2.m_sceneManager = s.m_sceneManager ∧
    (windowClosing s w).2.m_viewportSystem = s.m_viewportSystem ∧
    (windowClosing s w).2.m_window = s.m_window := by
  unfold windowClosing
  by_cases h : some w = s.m_window <;> simp [h]

/-- C1: for every non-negative elapsed time `dt`, `update(dt)` on an
initialized (or running) engine first pumps pending display/window
events and then invokes `update(dt)` exactly once on every registered
System, in registration order, before returning: the call succeeds with
trace `messagePump` followed by exactly one `systemUpdate sys dt` per
registered System in list order, and the registry is unchanged. -/
theorem ogre_update_pumps_then_updates_each_system_in_order
    (pending : List WindowEvent) (dt : Int) (s : EngineState)
    (_hdt : 0 ≤ dt)
    (hl : s.lifecycle = .initialized ∨ s.lifecycle = .running) :
    ∃ s', ogreUpdate pending dt s =
        .ok (s', Event.messagePump ::
          s.systems.map (fun sys => Event.systemUpdate sys dt)) ∧
      s'.systems = s.systems := by
  obtain ⟨hk, hv, hlc, hsys, hw⟩ := messagePump_fields pending s
  refine ⟨{ messagePump pending s with lifecycle := .running }, ?_, hsys⟩
  simp only [ogreUpdate, engineBaseUpdate]
  rcases hl with h | h <;> rw [hlc, h] <;> simp [lifecycleStep, hsys]

/-- Witness for C1: a concrete initialized engine, no pending events,
`dt = 16`. -/
theorem ogre_update_pumps_then_updates_witness :
    (0 : Int) ≤ 16 ∧
    ∃ s', ogreUpdate [] 16 sampleReady =
        .ok (s', Event.messagePump ::
          sampleReady.systems.map (fun sys => Event.systemUpdate sys 16)) ∧
      s'.systems = sampleReady.systems :=
  ⟨by decide,
    ogre_update_pumps_then_updates_each_system_in_order [] 16 sampleReady
      (by decide) (Or.inl rfl)⟩

/-- C7: if a window-close event for the engine's own window is delivered
during the event pump inside `update(dt)`, the process-level quit flag
is set by the time the call returns, and the call still completes the
frame normally, invoking every System's update for that frame. -/
theorem ogre_update_close_event_sets_quit_and_completes_frame
    (dt : Int) (s : EngineState) (w : Nat)
    (hl : s.lifecycle = .initialized ∨ s.lifecycle = .running)
    (hw : s.m_window = some w) :
    ∃ s', ogreUpdate [WindowEvent.close w] dt s =
        .ok (s', Event.messagePump ::
          s.systems.map (fun sys => Event.systemUpdate sys dt)) ∧
      s'.quit = true := by
  have hpump : messagePump [WindowEvent.close w] s = { s with quit := true } := by
    simp [messagePump, windowClosing, hw]
  refine ⟨{ s with quit := true, lifecycle := .running }, ?_, rfl⟩
  simp only [ogreUpdate, engineBaseUpdate, hpump]
  rcases hl with h | h <;> simp [lifecycleStep, h]

/-- Witness for C7: closing the own window (handle 7) of a concrete
initialized engine during `update(16)`. -/
theorem ogre_update_close_event_witness :
    ∃ s', ogreUpdate [WindowEvent.close 7] 16 sampleReady =
        .ok (s', Event.messagePump ::
          sampleReady.systems.map (fun sys => Event.systemUpdate sys 16)) ∧
      s'.quit = true :=
  ogre_update_close_event_sets_quit_and_completes_frame 16 sampleReady 7
    (Or.inl rfl) rfl

/-- C5: `shutdown()` tears down in order: the Systems, then the input
device manager (emitting no destroy call when it is absent), then the
display surface, then the rendering root; afterwards the stored
input-manager handle is null (and the root released). -/
theorem ogre_shutdown_order_and_nulls_input_manager
    (s : EngineState)
    (hl : s.lifecycle = .initialized ∨ s.lifecycle = .running) :
    ∃ s', ogreShutdown s =
        .ok (s', s.systems.map Event.systemShutdown ++
          (if s.m_inputManager.isSome then [Event.destroyInputSystem] else []) ++
          [Event.destroyWindow, Event.releaseRoot]) ∧
      s'.m_inputManager = none ∧ s'.m_root = false := by
  have hbase : engineBaseShutdown s =
      .ok ({ s with lifecycle := .shutDown }, s.systems.map Event.systemShutdown) := by
    unfold engineBaseShutdown
    rcases hl with h | h <;> rw [h] <;> rfl
  cases him : s.m_inputManager with
  | none =>
      refine ⟨{ s with lifecycle := .shutDown, m_root := false }, ?_, him, rfl⟩
      simp [ogreShutdown, hbase, shutdownInputManager, him]
  | some i =>
      refine ⟨{ s with
        lifecycle := .shutDown
        m_inputManager := none
        m_root := false }, ?_, rfl, rfl⟩
      simp [ogreShutdown, hbase, shutdownInputManager, him]

/-- Witness for C5: shutting down a concrete initialized engine whose
input manager is present. -/
theorem ogre_shutdown_order_witness :
    ∃ s', ogreShutdown sampleReady =
        .ok (s', sampleReady.systems.map Event.systemShutdown ++
          (if sampleReady.m_inputManager.isSome then [Event.destroyInputSystem]
            else []) ++
          [Event.destroyWindow, Event.releaseRoot]) ∧
      s'.m_inputManager = none ∧ s'.m_root = false :=
  ogre_shutdown_order_and_nulls_input_manager sampleReady (Or.inl rfl)

/-- C4: if during `init()` the display configuration can neither be
restored nor obtained from the dialog, the process exits immediately
with exit code 0 (`EXIT_SUCCESS`), the System registry is exactly as it
was (empty for a freshly constructed engine), and no System registration
call appears in the trace. -/
theorem ogre_init_config_cancel_exits_success_without_systems
    (env : Env) (s : EngineState)
    (h1 : env.restoreConfigOk = false) (h2 : env.showConfigDialogOk = false) :
    ∃ s' tr, ogreInit env s = .exited 0 (s', tr) ∧
      s'.systems = s.systems ∧
      ∀ sys, Event.registerSystem sys ∉ tr := by
  refine ⟨{ s with m_root := true },
    [Event.setupLog, Event.createRoot] ++
      (loadResources env.resourcesCfg).map
        (fun e => Event.addResourceLocation e.1 e.2.1 e.2.2) ++
      [Event.restoreConfigAttempt, Event.showConfigDialogAttempt],
    ?_, rfl, ?_⟩
  · simp only [ogreInit, loadConfig_exits _ _ h1 h2]
  · intro sys
    simp

/-- Witness for C4: both config calls fail on a freshly constructed
engine. -/
theorem ogre_init_config_cancel_witness :
    ∃ s' tr,
      ogreInit { sampleEnv with restoreConfigOk := false }
          (ogreEngineNew 1 2) = .exited 0 (s', tr) ∧
      s'.systems = (ogreEngineNew 1 2).systems ∧
      ∀ sys, Event.registerSystem sys ∉ tr :=
  ogre_init_config_cancel_exits_success_without_systems
    { sampleEnv with restoreConfigOk := false } (ogreEngineNew 1 2) rfl rfl

/-- C2: on a freshly constructed engine, a successful `init()` registers
the per-frame Systems in exactly the fixed pipeline order, and that
order satisfies the stated dependency constraints: scene-node creation
and sync before the camera system, the camera system before the viewport
system, the entity-visual system before the stale-scene-node removal
system, and the removal system before the render-submission system,
which is registered last. -/
theorem ogre_init_registers_pipeline_in_dependency_order
    (env : Env) (k v : Nat)
    (hc : (env.restoreConfigOk || env.showConfigDialogOk) = true) :
    ∃ s' tr, ogreInit env (ogreEngineNew k v) = .ok (s', tr) ∧
      s'.systems = pipelineOrder ∧
      pipelineOrder.indexOf SystemId.addSceneNode <
        pipelineOrder.indexOf SystemId.camera ∧
      pipelineOrder.indexOf SystemId.updateSceneNode <
        pipelineOrder.indexOf SystemId.camera ∧
      pipelineOrder.indexOf SystemId.camera <
        pipelineOrder.indexOf SystemId.viewport ∧
      pipelineOrder.indexOf SystemId.entity <
        pipelineOrder.indexOf SystemId.removeSceneNode ∧
      pipelineOrder.indexOf SystemId.removeSceneNode <
        pipelineOrder.indexOf SystemId.render ∧
      pipelineOrder.getLast? = some SystemId.render := by
  refine ⟨_, _, ogreInit_ok env (ogreEngineNew k v) hc rfl,
    rfl, ?_, ?_, ?_, ?_, ?_, ?_⟩ <;> decide

/-- Witness for C2: a concrete environment whose persisted display
configuration restores. -/
theorem ogre_init_registers_pipeline_witness :
    ∃ s' tr, ogreInit sampleEnv (ogreEngineNew 1 2) = .ok (s', tr) ∧
      s'.systems = pipelineOrder ∧
      pipelineOrder.indexOf SystemId.addSceneNode <
        pipelineOrder.indexOf SystemId.camera ∧
      pipelineOrder.indexOf SystemId.updateSceneNode <
        pipelineOrder.indexOf SystemId.camera ∧
      pipelineOrder.indexOf SystemId.camera <
        pipelineOrder.indexOf SystemId.viewport ∧
      pipelineOrder.indexOf SystemId.entity <
        pipelineOrder.indexOf SystemId.removeSceneNode ∧
      pipelineOrder.indexOf SystemId.removeSceneNode <
        pipelineOrder.indexOf SystemId.render ∧
      pipelineOrder.getLast? = some SystemId.render :=
  ogre_init_registers_pipeline_in_dependency_order sampleEnv 1 2 rfl

/-- C3: on an uninitialized engine with a resolvable display
configuration, `init()` performs its setup calls in exactly this order:
logging sink, rendering root from the plugin manifest, the resource
registrations of the manifest, the display-configuration resolution,
display-surface creation, window-close listener registration, mipmap
default and resource-group initialisation, scene manager, ambient
lighting, input device manager, then the registration of every System,
and finally the base-class `Engine::init`. -/
theorem ogre_init_setup_steps_in_strict_order
    (env : Env) (s : EngineState)
    (hc : (env.restoreConfigOk || env.showConfigDialogOk) = true)
    (hl : s.lifecycle = .uninitialized) :
    ∃ s', ogreInit env s = .ok (s',
      [Event.setupLog, Event.createRoot] ++
        (loadResources env.resourcesCfg).map
          (fun e => Event.addResourceLocation e.1 e.2.1 e.2.2) ++
        (Event.restoreConfigAttempt ::
          (if env.restoreConfigOk then [] else [Event.showConfigDialogAttempt])) ++
        [Event.createWindow, Event.addWindowListener, Event.setMipmaps,
         Event.initResourceGroups, Event.setupSceneManager,
         Event.setupLighting, Event.setupInputManager] ++
        pipelineOrder.map Event.registerSystem ++ [Event.engineInit]) :=
  ⟨_, ogreInit_ok env s hc hl⟩

/-- Witness for C3: the concrete environment and a freshly constructed
engine. -/
theorem ogre_init_setup_steps_witness :
    ∃ s', ogreInit sampleEnv (ogreEngineNew 1 2) = .ok (s',
      [Event.setupLog, Event.createRoot] ++
        (loadResources sampleEnv.resourcesCfg).map
          (fun e => Event.addResourceLocation e.1 e.2.1 e.2.2) ++
        (Event.restoreConfigAttempt ::
          (if sampleEnv.restoreConfigOk then []
            else [Event.showConfigDialogAttempt])) ++
        [Event.createWindow, Event.addWindowListener, Event.setMipmaps,
         Event.initResourceGroups, Event.setupSceneManager,
         Event.setupLighting, Event.setupInputManager] ++
        pipelineOrder.map Event.registerSystem ++ [Event.engineInit]) :=
  ogre_init_setup_steps_in_strict_order sampleEnv (ogreEngineNew 1 2) rfl rfl

lemma ogreInit_not_ok_of_not_uninitialized (env : Env) (s : EngineState)
    (hne : s.lifecycle ≠ .uninitialized) (r : EngineState × List Event) :
    ogreInit env s ≠ .ok r := by
  intro hok
  by_cases hc : (env.restoreConfigOk || env.showConfigDialogOk) = true
  · have hstep : lifecycleStep s.lifecycle .initM = none := by
      cases hl : s.lifecycle with
      | uninitialized => exact absurd hl hne
      | initialized => rfl
      | running => rfl
      | shutDown => rfl
    simp only [ogreInit, loadConfig_ok _ _ hc, engineBaseInit] at hok
    rw [hstep] at hok
    exact Outcome.noConfusion hok
  · cases hR : env.restoreConfigOk with
    | true => exact hc (by simp [hR])
    | false =>
        cases hD : env.showConfigDialogOk with
        | true => exact hc (by simp [hR, hD])
        | false =>
            simp only [ogreInit, loadConfig_exits _ _ hR hD] at hok
            exact Outcome.noConfusion hok

/-- C6: lifecycle transitions only ever move forward along
`Uninitialized → Initialized → Running → ShutDown` (with the `Running`
self-loop on `update`): every successful step is rank-nondecreasing, the
successful edges are exactly the five forward ones, `init` from any
state other than `Uninitialized` is rejected, and in particular a second
`init()` call without an intervening `shutdown()` (lifecycle already
`Initialized` or beyond) never returns normally. -/
theorem lifecycle_moves_forward_and_second_init_fails :
    (∀ l m l', lifecycleStep l m = some l' →
      lifecycleRank l ≤ lifecycleRank l') ∧
    (∀ l, l ≠ LifecycleState.uninitialized →
      lifecycleStep l LifecycleMethod.initM = none) ∧
    (∀ l m l', lifecycleStep l m = some l' ↔
      ((l = .uninitialized ∧ m = .initM ∧ l' = .initialized) ∨
       (l = .initialized ∧ m = .updateM ∧ l' = .running) ∨
       (l = .running ∧ m = .updateM ∧ l' = .running) ∨
       (l = .initialized ∧ m = .shutdownM ∧ l' = .shutDown) ∨
       (l = .running ∧ m = .shutdownM ∧ l' = .shutDown))) ∧
    (∀ env s r, s.lifecycle ≠ LifecycleState.uninitialized →
      ogreInit env s ≠ Outcome.ok r) := by
  refine ⟨?_, ?_, ?_, ?_⟩
  · intro l m l' h
    cases l <;> cases m <;> cases l' <;> revert h <;> decide
  · intro l h
    cases l with
    | uninitialized => exact absurd rfl h
    | initialized => rfl
    | running => rfl
    | shutDown => rfl
  · intro l m l'
    cases l <;> cases m <;> cases l' <;> simp [lifecycleStep]
  · intro env s r hne
    exact ogreInit_not_ok_of_not_uninitialized env s hne r

/-- Witness for C6: concrete instances of each hypothesis-bearing part —
the `Uninitialized → Initialized` edge is rank-increasing, `init` from
`Initialized` is rejected, and `init()` on a concrete already-initialized
engine does not return normally. -/
theorem lifecycle_moves_forward_witness :
    lifecycleRank .uninitialized ≤ lifecycleRank .initialized ∧
    lifecycleStep LifecycleState.initialized LifecycleMethod.initM = none ∧
    ogreInit sampleEnv sampleReady ≠ Outcome.ok (sampleReady, []) :=
  ⟨lifecycle_moves_forward_and_second_init_fails.1
      .uninitialized .initM .initialized (by decide),
    lifecycle_moves_forward_and_second_init_fails.2.1
      .initialized (by decide),
    lifecycle_moves_forward_and_second_init_fails.2.2.2
      sampleEnv sampleReady (sampleReady, []) (by decide)⟩

lemma applyOp_preserves_ctor_systems (s : EngineState) (op : Op) :
    (applyOp s op).m_keyboardSystem = s.m_keyboardSystem ∧
    (applyOp s op).m_viewportSystem = s.m_viewportSystem := by
  cases op with
  | opInit env =>
      by_cases hc : (env.restoreConfigOk || env.showConfigDialogOk) = true
      · cases hls : lifecycleStep s.lifecycle .initM with
        | some l =>
            simp [applyOp, ogreInit, loadConfig_ok _ _ hc, engineBaseInit,
              hls, Outcome.state]
        | none =>
            simp [applyOp, ogreInit, loadConfig_ok _ _ hc, engineBaseInit,
              hls, Outcome.state]
      · cases hR : env.restoreConfigOk with
        | true => exact absurd (by simp [hR]) hc
        | false =>
            cases hD : env.showConfigDialogOk with
            | true => exact absurd (by simp [hR, hD]) hc
            | false =>
                simp [applyOp, ogreInit, loadConfig_exits _ _ hR hD,
                  Outcome.state]
  | opUpdate pending dt =>
      obtain ⟨hk, hv, _, _, _⟩ := messagePump_fields pending s
      cases hls : lifecycleStep (messagePump pending s).lifecycle .updateM with
      | some l =>
          simp [applyOp, ogreUpdate, engineBaseUpdate, hls, Outcome.state, hk, hv]
      | none =>
          simp [applyOp, ogreUpdate, engineBaseUpdate, hls, Outcome.state, hk, hv]
  | opShutdown =>
      cases hls : lifecycleStep s.lifecycle .shutdownM with
      | some l =>
          cases him : s.m_inputManager with
          | none =>
              simp [applyOp, ogreShutdown, engineBaseShutdown,
                shutdownInputManager, hls, him, Outcome.state]
          | some i =>
              simp [applyOp, ogreShutdown, engineBaseShutdown,
                shutdownInputManager, hls, him, Outcome.state]
      | none =>
          simp [applyOp, ogreShutdown, engineBaseShutdown, hls, Outcome.state]
  | opWindowClosing w =>
      exact (windowClosing_fields s w).1

lemma runOps_preserves_ctor_systems (s : EngineState) (ops : List Op) :
    (runOps s ops).m_keyboardSystem = s.m_keyboardSystem ∧
    (runOps s ops).m_viewportSystem = s.m_viewportSystem := by
  induction ops generalizing s with
  | nil => exact ⟨rfl, rfl⟩
  | cons op rest ih =>
      have h1 := applyOp_preserves_ctor_systems s op
      have h2 := ih (applyOp s op)
      exact ⟨h2.1.trans h1.1, h2.2.trans h1.2⟩

lemma shutdownInputManager_nulls (s : EngineState) :
    (shutdownInputManager s).1.m_inputManager = none := by
  unfold shutdownInputManager
  cases h : s.m_inputManager with
  | none => simpa using h
  | some i => simp

lemma ogreShutdown_ok_inv (s s' : EngineState) (tr : List Event)
    (h : ogreShutdown s = .ok (s', tr)) :
    s'.m_inputManager = none ∧ s'.m_root = false := by
  unfold ogreShutdown at h
  cases heb : engineBaseShutdown s with
  | ok a =>
      obtain ⟨s1, tr1⟩ := a
      rw [heb] at h
      cases him : s1.m_inputManager with
      | none =>
          simp only [shutdownInputManager, him] at h
          cases h
          exact ⟨rfl, rfl⟩
      | some i =>
          simp only [shutdownInputManager, him] at h
          cases h
          exact ⟨rfl, rfl⟩
  | exited c a =>
      rw [heb] at h
      exact Outcome.noConfusion h
  | fatal a =>
      rw [heb] at h
      exact Outcome.noConfusion h

/-- C10: the keyboard and viewport System accessors return the same
non-null objects created in the constructor at every point of the
engine's lifetime — after any sequence of `init`/`update`/`shutdown`/
window-close operations — whereas `inputManager()`, `root()`,
`sceneManager()` and `window()` all return null on the freshly
constructed engine (before `init()`), and after a completed `shutdown()`
the input manager and root are null again. -/
theorem ogre_accessor_nullness_and_ctor_system_stability
    (k v : Nat) (ops : List Op) :
    keyboardSystemAcc (runOps (ogreEngineNew k v) ops) = some k ∧
    viewportSystemAcc (runOps (ogreEngineNew k v) ops) = some v ∧
    inputManagerAcc (ogreEngineNew k v) = none ∧
    rootAcc (ogreEngineNew k v) = false ∧
    sceneManagerAcc (ogreEngineNew k v) = false ∧
    windowAcc (ogreEngineNew k v) = none ∧
    (∀ s s' tr, ogreShutdown s = .ok (s', tr) →
      inputManagerAcc s' = none ∧ rootAcc s' = false) := by
  refine ⟨?_, ?_, rfl, rfl, rfl, rfl, ?_⟩
  · exact (runOps_preserves_ctor_systems (ogreEngineNew k v) ops).1
  · exact (runOps_preserves_ctor_systems (ogreEngineNew k v) ops).2
  · intro s s' tr h
    exact ogreShutdown_ok_inv s s' tr h

/-- Witness for C10: the full lifecycle `init; update; shutdown` run
concretely from a fresh engine, plus a concrete completed shutdown. -/
theorem ogre_accessor_nullness_witness :
    keyboardSystemAcc (runOps (ogreEngineNew 1 2)
      [Op.opInit sampleEnv, Op.opUpdate [] 16, Op.opShutdown]) = some 1 ∧
    viewportSystemAcc (runOps (ogreEngineNew 1 2)
      [Op.opInit sampleEnv, Op.opUpdate [] 16, Op.opShutdown]) = some 2 ∧
    inputManagerAcc (ogreEngineNew 1 2) = none ∧
    rootAcc (ogreEngineNew 1 2) = false ∧
    sceneManagerAcc (ogreEngineNew 1 2) = false ∧
    windowAcc (ogreEngineNew 1 2) = none ∧
    (∀ s s' tr, ogreShutdown s = .ok (s', tr) →
      inputManagerAcc s' = none ∧ rootAcc s' = false) :=
  ogre_accessor_nullness_and_ctor_system_stability 1 2
    [Op.opInit sampleEnv, Op.opUpdate [] 16, Op.opShutdown]

end Thrive
